import Mathlib

/-!
Verification of the GreenInvest / GreenAnalytics ESG scoring application
(`src/app.py`), shallowly embedded in Lean.

Python floats are modelled as exact rationals (`ℚ`); the input dict passed
to `calculate_scores` is modelled as a record of optional rationals, one
field per metric key, so that `dict.get(key, default)` becomes
`Option.getD`.  The SQLite tables `users` and `history` are modelled as
lists of rows; `INSERT` with a duplicate PRIMARY KEY raising
`sqlite3.IntegrityError` and `ORDER BY timestamp ASC` are modelled
explicitly.
-/

namespace GreenAnalytics

/-- The input mapping of `calculate_scores` (src/app.py).  Each of the nine
metric keys may be present (`some v`) or absent (`none`). -/
structure ScoreInput where
  energy : Option ℚ
  water : Option ℚ
  recycling : Option ℚ
  renewable : Option ℚ
  turnover : Option ℚ
  incidents : Option ℚ
  diversity : Option ℚ
  board : Option ℚ
  ethics : Option ℚ
deriving DecidableEq

/-- `float(inputs.get('energy', 50000))` -/
def energyOf (inputs : ScoreInput) : ℚ := inputs.energy.getD 50000

/-- `float(inputs.get('water', 2000))` -/
def waterOf (inputs : ScoreInput) : ℚ := inputs.water.getD 2000

/-- `float(inputs.get('recycling', 40))` -/
def recyclingOf (inputs : ScoreInput) : ℚ := inputs.recycling.getD 40

/-- `float(inputs.get('renewable', 0))` -/
def renewableOf (inputs : ScoreInput) : ℚ := inputs.renewable.getD 0

/-- `float(inputs.get('turnover', 15))` -/
def turnoverOf (inputs : ScoreInput) : ℚ := inputs.turnover.getD 15

/-- `float(inputs.get('incidents', 0))` -/
def incidentsOf (inputs : ScoreInput) : ℚ := inputs.incidents.getD 0

/-- `float(inputs.get('diversity', 30))` -/
def diversityOf (inputs : ScoreInput) : ℚ := inputs.diversity.getD 30

/-- `float(inputs.get('board', 60))` -/
def boardOf (inputs : ScoreInput) : ℚ := inputs.board.getD 60

/-- `float(inputs.get('ethics', 95))` -/
def ethicsOf (inputs : ScoreInput) : ℚ := inputs.ethics.getD 95

/-- `e_raw = ((max(0, 100 - energy/1000)) + (max(0, 100 - water/500)) +
(recycling) + (renewable * 1.5)) / 4` -/
def e_raw (inputs : ScoreInput) : ℚ :=
  ((max 0 (100 - energyOf inputs / 1000)) + (max 0 (100 - waterOf inputs / 500)) +
    (recyclingOf inputs) + (renewableOf inputs * 1.5)) / 4

/-- `e_score = min(100, max(0, e_raw))` -/
def e_score (inputs : ScoreInput) : ℚ := min 100 (max 0 (e_raw inputs))

/-- `s_raw = ((max(0, 100 - turnover*2)) + (max(0, 100 - incidents*10)) +
(diversity)) / 3` -/
def s_raw (inputs : ScoreInput) : ℚ :=
  ((max 0 (100 - turnoverOf inputs * 2)) + (max 0 (100 - incidentsOf inputs * 10)) +
    (diversityOf inputs)) / 3

/-- `s_score = min(100, max(0, s_raw))` -/
def s_score (inputs : ScoreInput) : ℚ := min 100 (max 0 (s_raw inputs))

/-- `g_raw = (board + ethics) / 2` -/
def g_raw (inputs : ScoreInput) : ℚ := (boardOf inputs + ethicsOf inputs) / 2

/-- `g_score = min(100, max(0, g_raw))` -/
def g_score (inputs : ScoreInput) : ℚ := min 100 (max 0 (g_raw inputs))

/-- `final = (e_score + s_score + g_score) / 3` -/
def final (inputs : ScoreInput) : ℚ :=
  (e_score inputs + s_score inputs + g_score inputs) / 3

/-- `calculate_scores` (src/app.py lines 234-257):
`return final, e_score, s_score, g_score`. -/
def calculate_scores (inputs : ScoreInput) : ℚ × ℚ × ℚ × ℚ :=
  (final inputs, e_score inputs, s_score inputs, g_score inputs)

/-- The example input of the spec:
`{energy:50000, water:2000, recycling:40, renewable:20, turnover:15,
incidents:0, diversity:30, board:60, ethics:95}`. -/
def exampleInput : ScoreInput :=
  ⟨some 50000, some 2000, some 40, some 20, some 15, some 0, some 30, some 60, some 95⟩

/-- The list of terms summed in the numerator of `e_raw`. -/
def e_terms (inputs : ScoreInput) : List ℚ :=
  [max 0 (100 - energyOf inputs / 1000), max 0 (100 - waterOf inputs / 500),
    recyclingOf inputs, renewableOf inputs * 1.5]

/-- The list of terms summed in the numerator of `s_raw`. -/
def s_terms (inputs : ScoreInput) : List ℚ :=
  [max 0 (100 - turnoverOf inputs * 2), max 0 (100 - incidentsOf inputs * 10),
    diversityOf inputs]

/-- The list of terms summed in the numerator of `g_raw`. -/
def g_terms (inputs : ScoreInput) : List ℚ :=
  [boardOf inputs, ethicsOf inputs]

/-- `ScoreInput` with every metric key present: `inputs` extended with the
defaults that `calculate_scores` uses for absent keys. -/
def withDefaults (inputs : ScoreInput) : ScoreInput :=
  ⟨some (inputs.energy.getD 50000), some (inputs.water.getD 2000),
    some (inputs.recycling.getD 40), some (inputs.renewable.getD 0),
    some (inputs.turnover.getD 15), some (inputs.incidents.getD 0),
    some (inputs.diversity.getD 30), some (inputs.board.getD 60),
    some (inputs.ethics.getD 95)⟩

/-- The input dict with none of the nine metric keys present. -/
def emptyInput : ScoreInput :=
  ⟨none, none, none, none, none, none, none, none, none⟩

/-- The dict holding exactly the nine documented defaults
(energy 50000, water 2000, recycling 40, renewable 0, turnover 15,
incidents 0, diversity 30, board 60, ethics 95). -/
def defaultsInput : ScoreInput :=
  ⟨some 50000, some 2000, some 40, some 0, some 15, some 0, some 30, some 60, some 95⟩

/-! ## Scenario simulator (src/app.py lines 543-547)

The inline recomputation done in the "Scenario Simulator" tab.  There every
metric key is present in `inputs` (the dict was built by the manual form),
so the dict accesses `inputs['water']`, … are modelled as plain values. -/

/-- `s_e_raw = ((max(0, 100 - sim_energy/1000)) + (max(0, 100 - inputs['water']/500))
+ (sim_recycling) + (inputs['renewable'] * 1.5)) / 4` -/
def sim_e_raw (sim_energy water sim_recycling renewable : ℚ) : ℚ :=
  ((max 0 (100 - sim_energy / 1000)) + (max 0 (100 - water / 500)) +
    (sim_recycling) + (renewable * 1.5)) / 4

/-- `s_e_score = min(100, max(0, s_e_raw))` -/
def sim_e_score (sim_energy water sim_recycling renewable : ℚ) : ℚ :=
  min 100 (max 0 (sim_e_raw sim_energy water sim_recycling renewable))

/-- `s_s_raw = ((max(0, 100 - sim_turnover*2)) + (max(0, 100 - inputs['incidents']*10))
+ (inputs['diversity'])) / 3` -/
def sim_s_raw (sim_turnover incidents diversity : ℚ) : ℚ :=
  ((max 0 (100 - sim_turnover * 2)) + (max 0 (100 - incidents * 10)) + (diversity)) / 3

/-- `s_s_score = min(100, max(0, s_s_raw))` -/
def sim_s_score (sim_turnover incidents diversity : ℚ) : ℚ :=
  min 100 (max 0 (sim_s_raw sim_turnover incidents diversity))

/-- `s_final = (s_e_score + s_s_score + g) / 3`, where `g` is the governance
score of the original (unsimulated) run. -/
def sim_final (e s g : ℚ) : ℚ := (e + s + g) / 3

/-! ## Persistence (src/app.py lines 120-169)

The two SQLite tables are modelled as lists of rows in insertion order. -/

/-- A row of the `users` table: `username TEXT PRIMARY KEY, name TEXT,
password_hash TEXT`. -/
structure UserRow where
  username : String
  name : String
  password_hash : String
deriving DecidableEq

/-- `register_user` (src/app.py lines 131-142).  `bcrypt.hashpw` with a fresh
salt is modelled as an uninterpreted function `hashpw` supplied by the
environment; SQLite raises `sqlite3.IntegrityError` on an `INSERT` whose
`username` collides with the PRIMARY KEY of an existing row, which the code
catches and turns into `False`.  Returns the flag and the resulting table. -/
def register_user (hashpw : String → String) (db : List UserRow)
    (username name password : String) : Bool × List UserRow :=
  if db.any (fun r => r.username = username) then
    (false, db)
  else
    (true, db ++ [⟨username, name, hashpw password⟩])

/-- A row of the `history` table.  `timestamp` is the ISO-8601 string written
by `datetime.datetime.now().isoformat()`; ISO-8601 strings compare
chronologically, so timestamps are modelled as naturally ordered values. -/
structure HistoryRow where
  username : String
  timestamp : ℕ
  overall : ℚ
  e_score : ℚ
  s_score : ℚ
  g_score : ℚ
  details : String
deriving DecidableEq

/-- `save_data` (src/app.py lines 155-161): one `INSERT INTO history`. -/
def save_data (db : List HistoryRow) (username : String) (timestamp : ℕ)
    (overall e s g : ℚ) (details : String) : List HistoryRow :=
  db ++ [⟨username, timestamp, overall, e, s, g, details⟩]

/-- The ordering used by `ORDER BY timestamp ASC`. -/
def byTimestamp (a b : HistoryRow) : Prop := a.timestamp ≤ b.timestamp

instance : DecidableRel byTimestamp := fun _ _ => Nat.decLe _ _

instance : IsTotal HistoryRow byTimestamp := ⟨fun a b => Nat.le_total a.timestamp b.timestamp⟩

instance : IsTrans HistoryRow byTimestamp := ⟨fun _ _ _ => Nat.le_trans⟩

/-- `get_history` (src/app.py lines 163-169):
`SELECT ... FROM history WHERE username = ? ORDER BY timestamp ASC`. -/
def get_history (db : List HistoryRow) (username : String) : List HistoryRow :=
  List.insertionSort byTimestamp (db.filter (fun r => r.username = username))

/-- The arguments of one `save_data` call. -/
structure SaveCall where
  username : String
  timestamp : ℕ
  overall : ℚ
  e : ℚ
  s : ℚ
  g : ℚ
  details : String
deriving DecidableEq

/-- The history row a `save_data` call inserts. -/
def SaveCall.row (c : SaveCall) : HistoryRow :=
  ⟨c.username, c.timestamp, c.overall, c.e, c.s, c.g, c.details⟩

/-- A sequence of `save_data` calls applied in order. -/
def save_many (db : List HistoryRow) (calls : List SaveCall) : List HistoryRow :=
  calls.foldl
    (fun d c => save_data d c.username c.timestamp c.overall c.e c.s c.g c.details) db

lemma save_many_eq (db : List HistoryRow) (calls : List SaveCall) :
    save_many db calls = db ++ calls.map SaveCall.row := by
  induction calls generalizing db with
  | nil => simp [save_many]
  | cons c cs ih =>
    simp only [save_many, List.foldl_cons] at *
    rw [ih, save_data, List.append_assoc]
    rfl

/-! ## Helper lemmas -/

lemma clamp_range (x : ℚ) : 0 ≤ min 100 (max 0 x) ∧ min 100 (max 0 x) ≤ 100 :=
  ⟨le_min (by norm_num) (le_max_left 0 x), min_le_left _ _⟩

lemma clamp_mono {x y : ℚ} (h : x ≤ y) : min 100 (max 0 x) ≤ min 100 (max 0 y) :=
  min_le_min le_rfl (max_le_max le_rfl h)

/-! ## Claims about the scoring engine -/

/-- C1: for every input mapping, all four values returned by
`calculate_scores` (overall, environmental, social, governance) lie in
[0,100]: each sub-score is clamped to [0,100] after averaging, and the
overall score, being their equal-weight average, also never leaves
[0,100]. -/
theorem calculate_scores_range (inputs : ScoreInput) :
    (0 ≤ (calculate_scores inputs).1 ∧ (calculate_scores inputs).1 ≤ 100) ∧
    (0 ≤ (calculate_scores inputs).2.1 ∧ (calculate_scores inputs).2.1 ≤ 100) ∧
    (0 ≤ (calculate_scores inputs).2.2.1 ∧ (calculate_scores inputs).2.2.1 ≤ 100) ∧
    (0 ≤ (calculate_scores inputs).2.2.2 ∧ (calculate_scores inputs).2.2.2 ≤ 100) := by
  obtain ⟨he0, he1⟩ := clamp_range (e_raw inputs)
  obtain ⟨hs0, hs1⟩ := clamp_range (s_raw inputs)
  obtain ⟨hg0, hg1⟩ := clamp_range (g_raw inputs)
  have hE : (calculate_scores inputs).2.1 = e_score inputs := rfl
  have hS : (calculate_scores inputs).2.2.1 = s_score inputs := rfl
  have hG : (calculate_scores inputs).2.2.2 = g_score inputs := rfl
  have hO : (calculate_scores inputs).1 =
      (e_score inputs + s_score inputs + g_score inputs) / 3 := rfl
  rw [hE, hS, hG, hO, e_score, s_score, g_score]
  refine ⟨⟨?_, ?_⟩, ⟨he0, he1⟩, ⟨hs0, hs1⟩, ⟨hg0, hg1⟩⟩ <;>
    rw [e_score, s_score, g_score] at * <;> linarith

/-- C5: under General (default) weighting, for every input the overall score
returned by `calculate_scores` equals the plain arithmetic mean
(E + S + G) / 3 of the three clamped pillar sub-scores it returns. -/
theorem overall_is_plain_mean (inputs : ScoreInput) :
    (calculate_scores inputs).1 =
      ((calculate_scores inputs).2.1 + (calculate_scores inputs).2.2.1 +
        (calculate_scores inputs).2.2.2) / 3 := rfl

/-- C6: for the specific input {energy:50000, water:2000, recycling:40,
renewable:20, turnover:15, incidents:0, diversity:30, board:60, ethics:95}
(General weights), the environmental sub-score returned by
`calculate_scores` equals (50+96+40+30)/4 = 54.0. -/
theorem example_environmental_score :
    (calculate_scores exampleInput).2.1 = (50 + 96 + 40 + 30) / 4 ∧
    (calculate_scores exampleInput).2.1 = 54 := by
  constructor <;>
    norm_num [calculate_scores, e_score, e_raw, energyOf, waterOf, recyclingOf,
      renewableOf, exampleInput]

/-- C7: `calculate_scores` is total on mappings with missing keys: every
absent field is replaced by a fixed numeric default (a missing `renewable`
defaults to 0), so a dict missing any subset of the nine fields gives the
same result as that dict extended with the defaults. -/
theorem calculate_scores_missing_defaults (inputs : ScoreInput) :
    calculate_scores inputs = calculate_scores (withDefaults inputs) ∧
    withDefaults emptyInput = defaultsInput := by
  refine ⟨?_, rfl⟩
  simp [calculate_scores, final, e_score, s_score, g_score, e_raw, s_raw, g_raw,
    energyOf, waterOf, recyclingOf, renewableOf, turnoverOf, incidentsOf,
    diversityOf, boardOf, ethicsOf, withDefaults]

/-- C10: the scenario simulator's inline recomputation agrees with the
scoring engine: for every input dict containing all nine metric keys and
every simulated values, the simulated overall score equals the overall score
of `calculate_scores` on the input with its energy, turnover and recycling
entries replaced by the simulated values (the `g` passed to the simulator is
the governance score of the original run, which does not depend on those
three fields). -/
theorem simulator_matches_engine
    (energy water recycling renewable turnover incidents diversity board ethics
      sim_energy sim_turnover sim_recycling : ℚ) :
    sim_final (sim_e_score sim_energy water sim_recycling renewable)
      (sim_s_score sim_turnover incidents diversity)
      (g_score ⟨some energy, some water, some recycling, some renewable,
        some turnover, some incidents, some diversity, some board, some ethics⟩)
    = (calculate_scores
        { (⟨some energy, some water, some recycling, some renewable, some turnover,
            some incidents, some diversity, some board, some ethics⟩ : ScoreInput) with
          energy := some sim_energy, turnover := some sim_turnover,
          recycling := some sim_recycling }).1 := by
  simp [sim_final, sim_e_score, sim_s_score, sim_e_raw, sim_s_raw, calculate_scores,
    final, e_score, s_score, g_score, e_raw, s_raw, g_raw, energyOf, waterOf,
    recyclingOf, renewableOf, turnoverOf, incidentsOf, diversityOf, boardOf, ethicsOf]

/-- C3 counterexample: the governance pillar of `calculate_scores` sums only
2 terms (board, ethics), so at the example input its term count is 2, not 3,
4, or 5 as the claim states. -/
theorem governance_term_count_counterexample :
    (g_terms exampleInput).length = 2 ∧
    ¬((g_terms exampleInput).length = 3 ∨ (g_terms exampleInput).length = 4 ∨
      (g_terms exampleInput).length = 5) := by
  refine ⟨rfl, ?_⟩
  simp [g_terms]

/-- C3 amended: for each pillar, the divisor used when averaging equals the
count of terms actually included in that pillar, and those counts are 4
(environmental), 3 (social) and 2 (governance). -/
theorem divisor_eq_term_count (inputs : ScoreInput) :
    (e_raw inputs = (e_terms inputs).sum / ((e_terms inputs).length : ℚ) ∧
      (e_terms inputs).length = 4) ∧
    (s_raw inputs = (s_terms inputs).sum / ((s_terms inputs).length : ℚ) ∧
      (s_terms inputs).length = 3) ∧
    (g_raw inputs = (g_terms inputs).sum / ((g_terms inputs).length : ℚ) ∧
      (g_terms inputs).length = 2) := by
  refine ⟨⟨?_, rfl⟩, ⟨?_, rfl⟩, ⟨?_, rfl⟩⟩ <;>
    simp [e_raw, s_raw, g_raw, e_terms, s_terms, g_terms] <;> ring

/-- C4 counterexample: at the example input, the overall score returned by
`calculate_scores` differs from the Manufacturing-weighted combination
0.5·E + 0.3·S + 0.2·G of the three sub-scores it returns, so no
Manufacturing weighting is applied. -/
theorem manufacturing_weights_counterexample :
    (calculate_scores exampleInput).1 ≠
      1/2 * (calculate_scores exampleInput).2.1 +
      3/10 * (calculate_scores exampleInput).2.2.1 +
      1/5 * (calculate_scores exampleInput).2.2.2 := by
  norm_num [calculate_scores, final, e_score, s_score, g_score, e_raw, s_raw, g_raw,
    energyOf, waterOf, recyclingOf, renewableOf, turnoverOf, incidentsOf,
    diversityOf, boardOf, ethicsOf, exampleInput]

/-- C4 amended: `calculate_scores` accepts no industry argument; for every
input the overall score is combined with the fixed General weight triple
(1/3, 1/3, 1/3) applied to the three clamped sub-scores, never the
Manufacturing triple (0.5, 0.3, 0.2). -/
theorem overall_uses_general_weights (inputs : ScoreInput) :
    (calculate_scores inputs).1 =
      1/3 * (calculate_scores inputs).2.1 + 1/3 * (calculate_scores inputs).2.2.1 +
      1/3 * (calculate_scores inputs).2.2.2 := by
  have hE : (calculate_scores inputs).2.1 = e_score inputs := rfl
  have hS : (calculate_scores inputs).2.2.1 = s_score inputs := rfl
  have hG : (calculate_scores inputs).2.2.2 = g_score inputs := rfl
  have hO : (calculate_scores inputs).1 = final inputs := rfl
  rw [hE, hS, hG, hO, final]
  ring

/-- C2: `calculate_scores` is monotone field-by-field: increasing any one of
recycling, renewable, diversity, board, ethics while holding the others
fixed never decreases the corresponding pillar sub-score, and increasing any
one of energy, water, turnover, incidents never increases the corresponding
pillar sub-score. -/
theorem calculate_scores_field_monotone (i : ScoreInput) (a b : ℚ) (hab : a ≤ b) :
    e_score { i with recycling := some a } ≤ e_score { i with recycling := some b } ∧
    e_score { i with renewable := some a } ≤ e_score { i with renewable := some b } ∧
    s_score { i with diversity := some a } ≤ s_score { i with diversity := some b } ∧
    g_score { i with board := some a } ≤ g_score { i with board := some b } ∧
    g_score { i with ethics := some a } ≤ g_score { i with ethics := some b } ∧
    e_score { i with energy := some b } ≤ e_score { i with energy := some a } ∧
    e_score { i with water := some b } ≤ e_score { i with water := some a } ∧
    s_score { i with turnover := some b } ≤ s_score { i with turnover := some a } ∧
    s_score { i with incidents := some b } ≤ s_score { i with incidents := some a } := by
  refine ⟨?_, ?_, ?_, ?_, ?_, ?_, ?_, ?_, ?_⟩ <;>
  · simp only [e_score, s_score, g_score]
    apply clamp_mono
    simp only [e_raw, s_raw, g_raw, energyOf, waterOf, recyclingOf, renewableOf,
      turnoverOf, incidentsOf, diversityOf, boardOf, ethicsOf, Option.getD_some]
    gcongr

/-- Witness for C2 at the example input with a = 0 ≤ 1 = b. -/
theorem calculate_scores_field_monotone_witness :
    (0 : ℚ) ≤ 1 ∧
    (e_score { exampleInput with recycling := some 0 } ≤
        e_score { exampleInput with recycling := some 1 } ∧
      e_score { exampleInput with renewable := some 0 } ≤
        e_score { exampleInput with renewable := some 1 } ∧
      s_score { exampleInput with diversity := some 0 } ≤
        s_score { exampleInput with diversity := some 1 } ∧
      g_score { exampleInput with board := some 0 } ≤
        g_score { exampleInput with board := some 1 } ∧
      g_score { exampleInput with ethics := some 0 } ≤
        g_score { exampleInput with ethics := some 1 } ∧
      e_score { exampleInput with energy := some 1 } ≤
        e_score { exampleInput with energy := some 0 } ∧
      e_score { exampleInput with water := some 1 } ≤
        e_score { exampleInput with water := some 0 } ∧
      s_score { exampleInput with turnover := some 1 } ≤
        s_score { exampleInput with turnover := some 0 } ∧
      s_score { exampleInput with incidents := some 1 } ≤
        s_score { exampleInput with incidents := some 0 }) :=
  ⟨by norm_num, calculate_scores_field_monotone exampleInput 0 1 (by norm_num)⟩

/-! ## Claims about persistence -/

lemma register_user_fst (hashpw : String → String) (db : List UserRow)
    (u n p : String) :
    (register_user hashpw db u n p).1 = !db.any (fun r => r.username = u) := by
  unfold register_user
  split <;> simp_all

/-- C8: `register_user` returns True when the username is not yet present in
the users table, False when it already exists (registering the same username
twice yields True then False), and its outcome does not depend on the
display name or password, so a duplicate display name alone never causes
failure. -/
theorem register_user_username_uniqueness (hashpw : String → String)
    (db : List UserRow) (u n p n' p' : String) :
    ((∀ r ∈ db, r.username ≠ u) → (register_user hashpw db u n p).1 = true) ∧
    ((∃ r ∈ db, r.username = u) → (register_user hashpw db u n p).1 = false) ∧
    ((∀ r ∈ db, r.username ≠ u) →
      (register_user hashpw (register_user hashpw db u n p).2 u n' p').1 = false) ∧
    (register_user hashpw db u n p).1 = (register_user hashpw db u n' p').1 := by
  refine ⟨fun h => ?_, fun h => ?_, fun h => ?_, ?_⟩
  · rw [register_user_fst]
    simp only [Bool.not_eq_true', List.any_eq_false, decide_eq_true_eq]
    exact fun r hr => h r hr
  · rw [register_user_fst]
    obtain ⟨r, hr, hru⟩ := h
    have : db.any (fun r => r.username = u) = true := by
      simp only [List.any_eq_true, decide_eq_true_eq]
      exact ⟨r, hr, hru⟩
    simp [this]
  · have hcond : db.any (fun r => r.username = u) = false := by
      simp only [List.any_eq_false, decide_eq_true_eq]
      exact fun r hr => h r hr
    have hsnd : (register_user hashpw db u n p).2 = db ++ [⟨u, n, hashpw p⟩] := by
      unfold register_user
      rw [if_neg (by simp [hcond])]
    rw [hsnd, register_user_fst]
    simp
  · rw [register_user_fst, register_user_fst]

/-- Witness for C8: on an empty table, registering "alice" succeeds and
registering "alice" again (with a different display name) fails. -/
theorem register_user_username_uniqueness_witness :
    (register_user id [] "alice" "Alice A" "pw1").1 = true ∧
    (register_user id (register_user id [] "alice" "Alice A" "pw1").2
        "alice" "Alice B" "pw2").1 = false :=
  ⟨(register_user_username_uniqueness id [] "alice" "Alice A" "pw1" "Alice B" "pw2").1
      (by simp),
    (register_user_username_uniqueness id [] "alice" "Alice A" "pw1" "Alice B"
      "pw2").2.2.1 (by simp)⟩

/-- C9: starting from a table with no rows for `u`, after the calls in
`calls` are applied, `get_history u` returns exactly as many records as
there were `save_data` calls for `u`, and the records are in non-decreasing
timestamp order. -/
theorem get_history_count_and_order (init : List HistoryRow) (calls : List SaveCall)
    (u : String) (N : ℕ)
    (hinit : ∀ r ∈ init, r.username ≠ u)
    (hN : (calls.filter (fun c => c.username = u)).length = N) :
    (get_history (save_many init calls) u).length = N ∧
    List.Sorted byTimestamp (get_history (save_many init calls) u) := by
  constructor
  · rw [get_history, List.length_insertionSort, save_many_eq, List.filter_append]
    have h1 : init.filter (fun r => r.username = u) = [] := by
      simp only [List.filter_eq_nil_iff, decide_eq_true_eq]
      exact fun r hr => hinit r hr
    rw [h1, List.nil_append, List.filter_map, List.length_map]
    exact hN
  · exact List.sorted_insertionSort byTimestamp _

/-- Witness for C9: two saves for "alice" on an empty table yield exactly two
records, in non-decreasing timestamp order. -/
theorem get_history_count_and_order_witness :
    (get_history (save_many []
        [⟨"alice", 1, 50, 50, 50, 50, "d1"⟩, ⟨"alice", 2, 60, 60, 60, 60, "d2"⟩])
      "alice").length = 2 ∧
    List.Sorted byTimestamp (get_history (save_many []
        [⟨"alice", 1, 50, 50, 50, 50, "d1"⟩, ⟨"alice", 2, 60, 60, 60, 60, "d2"⟩])
      "alice") :=
  get_history_count_and_order []
    [⟨"alice", 1, 50, 50, 50, 50, "d1"⟩, ⟨"alice", 2, 60, 60, 60, 60, "d2"⟩]
    "alice" 2 (by simp) (by rfl)

end GreenAnalytics
